import Mathlib

/-
  Shallow embedding of edward/inferences.py: the VariationalInference
  control loop, MFVI estimator selection and loss construction, KLpq
  importance-weighted loss, and MAP/Laplace point-mass inference.

  Stateful TensorFlow graph construction is modelled by explicit state
  passing; tensors carry a dual number (value, gradient w.r.t. the
  variational parameters) so that stop_gradient can be modelled as
  zeroing the gradient component.
-/

namespace Edward

/- ### Control loop: VariationalInference.run (inferences.py lines 66-85)

   run calls initialize, then for t in range(n_iter+1) it calls
   update() (returning a loss) followed by print_progress(t, loss),
   and finally finalize().  We record the calls as a trace of events;
   the optimizer state threaded through update is an abstract type. -/

inductive Event where
  | init : Event
  | update (loss : ℚ) : Event
  | print_progress (t : Nat) (loss : ℚ) : Event
  | finalize : Event
deriving DecidableEq, Repr

/-- The body of the for-loop in run: k iterations remain, t is the current
iteration counter, s the optimizer state; each iteration calls update
(yielding a new state and a loss) then print_progress, and finalize is
emitted after the loop. -/
def runLoopTrace {σ : Type} (upd : σ → σ × ℚ) : Nat → Nat → σ → List Event
  | 0, _, _ => [Event.finalize]
  | k+1, t, s =>
    Event.update (upd s).2 :: Event.print_progress t (upd s).2 ::
      runLoopTrace upd k (t+1) (upd s).1

/-- Trace of VariationalInference.run: initialize, then the loop over
range(n_iter+1) starting at t = 0, then finalize. -/
def runTrace {σ : Type} (upd : σ → σ × ℚ) (n_iter : Nat) (s : σ) : List Event :=
  Event.init :: runLoopTrace upd (n_iter + 1) 0 s

/-- Optimizer state before the t-th update (t = 0 is the state right after
initialize). -/
def iterState {σ : Type} (upd : σ → σ × ℚ) (s : σ) : Nat → σ
  | 0 => s
  | t+1 => (upd (iterState upd s t)).1

/-- The loss value returned by the t-th call to update. -/
def lossSeq {σ : Type} (upd : σ → σ × ℚ) (s : σ) (t : Nat) : ℚ :=
  (upd (iterState upd s t)).2

/-- Recognizer for update events. -/
def isUpdate : Event → Bool
  | Event.update _ => true
  | _ => false

/-- Recognizer for finalize events. -/
def isFinalize : Event → Bool
  | Event.finalize => true
  | _ => false

/-- Recognizer for the initialize event. -/
def isInit : Event → Bool
  | Event.init => true
  | _ => false

/-- Recognizer for print_progress events. -/
def isPrint : Event → Bool
  | Event.print_progress _ _ => true
  | _ => false

/- ### MFVI.initialize estimator selection (inferences.py lines 211-230)

   if score is None and self.variational.is_reparam:
       self.score = False
   else:
       self.score = True

   self.score = true means the score-function estimator is used,
   self.score = false means the reparameterization estimator is used. -/

/-- The value assigned to self.score by MFVI.initialize, given the score
argument (none models Python None) and the is_reparam family flag. -/
def selectScore (score : Option Bool) (is_reparam : Bool) : Bool :=
  if score = none ∧ is_reparam then false else true

/- ### VariationalInference.initialize (inferences.py lines 87-138)

   Models the sequence of attribute assignments:
   self.n_iter, self.n_data, self.n_print, self.loss = tf.constant(0.0),
   then build_loss() (which in every subclass assigns self.zs and
   self.loss and returns the loss graph node), then either the Adam
   training op (optimizer is None) or, for a given optimizer, a raised
   NotImplementedError when a scope is also given, else the
   PrettyTensor training op.  The returned pair is the mutated object
   state together with an optional raised error, since a Python raise
   leaves prior attribute mutations in place. -/

inductive TrainOp where
  | adamDecay (scope : Option String) : TrainOp
  | ptAdam : TrainOp
deriving DecidableEq, Repr

structure VIState where
  n_iter : Option Nat := none
  n_data : Option (Option Nat) := none
  n_print : Option (Option Nat) := none
  loss : Option ℚ := none
  zs : Option ℚ := none
  train : Option TrainOp := none
deriving DecidableEq, Repr

def errNotSupported : String :=
  "PrettyTensor optimizer does not accept a variable scope."

/-- Models VariationalInference.initialize.  lossB and zsB are the values
the subclass build_loss assigns to self.loss and self.zs. -/
def initVI (s : VIState) (n_iter : Nat) (n_data n_print : Option Nat)
    (lossB zsB : ℚ) (optimizer : Option String) (scope : Option String) :
    VIState × Option String :=
  let s1 : VIState :=
    { s with n_iter := some n_iter, n_data := some n_data,
             n_print := some n_print, loss := some 0 }
  let s2 : VIState := { s1 with loss := some lossB, zs := some zsB }
  match optimizer with
  | none => ({ s2 with train := some (TrainOp.adamDecay scope) }, none)
  | some _ =>
    match scope with
    | some _ => (s2, some errNotSupported)
    | none => ({ s2 with train := some TrainOp.ptAdam }, none)

/- ### MFVI.build_loss dispatch (inferences.py lines 245-292) -/

inductive LossVariant where
  | score_loss_kl : LossVariant
  | score_loss : LossVariant
  | score_loss_entropy : LossVariant
  | reparam_loss_kl : LossVariant
  | reparam_loss : LossVariant
  | reparam_loss_entropy : LossVariant
deriving DecidableEq, Repr

/-- Which loss builder MFVI.build_loss dispatches to, as a function of
self.score, self.variational.is_normal and hasattr(self.model, log_lik).
The is_entropy branches are commented out in the source and do not
appear. -/
def mfviBuildLossVariant (score is_normal has_log_lik : Bool) : LossVariant :=
  if score then
    if is_normal ∧ has_log_lik then LossVariant.score_loss_kl
    else LossVariant.score_loss
  else
    if is_normal ∧ has_log_lik then LossVariant.reparam_loss_kl
    else LossVariant.reparam_loss

/- ### Dual-number model of the TensorFlow graph

   Each tensor entry is a pair (value, gradient w.r.t. the variational
   parameters λ).  tf.stop_gradient keeps the value and kills the
   gradient.  tf.reduce_mean is linear, so its gradient is the mean of
   the gradients. -/

structure Dual (α : Type) where
  val : α
  grad : α
deriving DecidableEq, Repr

def dadd {α : Type} [Add α] (a b : Dual α) : Dual α :=
  ⟨a.val + b.val, a.grad + b.grad⟩

def dsub {α : Type} [Sub α] (a b : Dual α) : Dual α :=
  ⟨a.val - b.val, a.grad - b.grad⟩

def dmul {α : Type} [Mul α] [Add α] (a b : Dual α) : Dual α :=
  ⟨a.val * b.val, a.grad * b.val + a.val * b.grad⟩

def dneg {α : Type} [Neg α] (a : Dual α) : Dual α :=
  ⟨-a.val, -a.grad⟩

/-- Model of tf.stop_gradient (and of edward.util.stop_gradient applied to
the sampled z): same value, zero gradient. -/
def stopGradient {α : Type} [Zero α] (a : Dual α) : Dual α :=
  ⟨a.val, 0⟩

def meanL {α : Type} [DivisionRing α] (l : List α) : α :=
  l.sum / (l.length : α)

/-- Model of tf.reduce_mean on a vector of dual numbers. -/
def reduce_mean {α : Type} [DivisionRing α] (l : List (Dual α)) : Dual α :=
  ⟨meanL (l.map Dual.val), meanL (l.map Dual.grad)⟩

/- ### Collaborator models

   The variational family exposes log_prob(z), a function of z and of
   the variational parameters λ; the probability model exposes
   log_prob(x, z) (and optionally log_lik), functions of x and z only.
   Their automatic-differentiation lifts propagate gradients by the
   chain rule: the partial derivatives below are the collaborators'
   (opaque) derivative functions. -/

structure QFamily (α : Type) where
  logq : α → α
  dlogq_dz : α → α
  dlogq_dl : α → α

/-- AD lift of variational.log_prob at a dual z: the gradient combines the
direct dependence on λ with the chain rule through z. -/
def QFamily.logProbD {α : Type} [Mul α] [Add α] (Q : QFamily α) (z : Dual α) :
    Dual α :=
  ⟨Q.logq z.val, Q.dlogq_dl z.val + Q.dlogq_dz z.val * z.grad⟩

structure PModel (α : Type) where
  logp : α → α → α
  dlogp_dz : α → α → α

/-- AD lift of model.log_prob(x, z) at a dual z: x is data and carries no
gradient, so only the chain rule through z contributes. -/
def PModel.logProbD {α : Type} [Mul α] (M : PModel α) (x : α) (z : Dual α) :
    Dual α :=
  ⟨M.logp x z.val, M.dlogp_dz x z.val * z.grad⟩

/- ### MFVI.build_score_loss (inferences.py lines 294-314)

   q_log_prob = self.variational.log_prob(stop_gradient(z))
   losses = self.model.log_prob(x, z) - q_log_prob
   self.loss = tf.reduce_mean(losses)
   return -tf.reduce_mean(q_log_prob * tf.stop_gradient(losses))

   All tensor operations are elementwise over the n_minibatch samples
   zs; we model them as maps over the sample list.  The result pair is
   (self.loss, returned loss node). -/

def scoreLosses (M : PModel ℚ) (Q : QFamily ℚ) (x : ℚ) (z : Dual ℚ) : Dual ℚ :=
  dsub (M.logProbD x z) (Q.logProbD (stopGradient z))

def build_score_loss (M : PModel ℚ) (Q : QFamily ℚ) (x : ℚ)
    (zs : List (Dual ℚ)) : Dual ℚ × Dual ℚ :=
  (reduce_mean (zs.map (scoreLosses M Q x)),
   dneg (reduce_mean (zs.map fun z =>
     dmul (Q.logProbD (stopGradient z)) (stopGradient (scoreLosses M Q x z)))))

/- ### edward.util.log_sum_exp and KLpq.build_loss -/

/-- Modelled from the spec: edward.util.log_sum_exp is not under src/;
the spec describes it as a numerically stable log-sum-exp reduction,
whose exact value is log of the sum of the exponentials. -/
noncomputable def log_sum_exp (l : List ℝ) : ℝ :=
  Real.log ((l.map Real.exp).sum)

/-- AD lift of tf.exp. -/
noncomputable def dexp (a : Dual ℝ) : Dual ℝ :=
  ⟨Real.exp a.val, Real.exp a.val * a.grad⟩

/-- AD lift of log_sum_exp on a vector of duals: the gradient is the
softmax-weighted mean of the gradients. -/
noncomputable def log_sum_expD (l : List (Dual ℝ)) : Dual ℝ :=
  ⟨log_sum_exp (l.map Dual.val),
   (l.map fun a => Real.exp a.val * a.grad).sum /
     ((l.map fun a => Real.exp a.val).sum)⟩

/- ### KLpq.build_loss (inferences.py lines 481-526)

   q_log_prob = self.variational.log_prob(stop_gradient(z))
   log_w = self.model.log_prob(x, z) - q_log_prob
   log_w_norm = log_w - log_sum_exp(log_w)
   w_norm = tf.exp(log_w_norm)
   self.loss = tf.reduce_mean(w_norm * log_w)
   return -tf.reduce_mean(q_log_prob * tf.stop_gradient(w_norm)) -/

def klpqLogW (M : PModel ℝ) (Q : QFamily ℝ) (x : ℝ) (z : Dual ℝ) : Dual ℝ :=
  dsub (M.logProbD x z) (Q.logProbD (stopGradient z))

noncomputable def klpq_build_loss (M : PModel ℝ) (Q : QFamily ℝ) (x : ℝ)
    (zs : List (Dual ℝ)) : Dual ℝ × Dual ℝ :=
  let log_w := zs.map (klpqLogW M Q x)
  let lse := log_sum_expD log_w
  let w_norm := log_w.map fun a => dexp (dsub a lse)
  (reduce_mean (List.zipWith dmul w_norm log_w),
   dneg (reduce_mean (List.zipWith (fun z w => dmul (Q.logProbD (stopGradient z)) (stopGradient w)) zs w_norm)))

/-- softmax component of a weight vector, for comparison with the
log-domain normalization. -/
noncomputable def softmax (l : List ℝ) (a : ℝ) : ℝ :=
  Real.exp a / ((l.map Real.exp).sum)

/- ### VariationalInference.print_progress (inferences.py lines 152-165)

   if self.n_print is not None:
       if t % self.n_print == 0:
           print("iter ..d loss ..2f")
           print(self.variational)

   The two printed lines are modelled as output records; formatting the
   loss to two decimal places is modelled as rounding to hundredths. -/

inductive OutputLine where
  | progress (t : Nat) (lossHundredths : ℤ) : OutputLine
  | summary (s : String) : OutputLine
deriving DecidableEq, Repr

/-- The loss formatted to 2 decimal places, as an integer count of
hundredths. -/
def fmtHundredths (loss : ℚ) : ℤ :=
  round (loss * 100)

/-- Lines printed by print_progress(t, loss); vsum is str(self.variational),
the human-readable summary of the variational family state. -/
def print_progress (n_print : Option Nat) (vsum : String) (t : Nat)
    (loss : ℚ) : List OutputLine :=
  match n_print with
  | none => []
  | some np =>
    if t % np = 0 then
      [OutputLine.progress t (fmtHundredths loss), OutputLine.summary vsum]
    else []

/- ### MAP and Laplace (inferences.py lines 528-606) -/

/-- A model as seen by MAP/Laplace construction: num_vars = none models a
model object with no num_vars attribute. -/
structure ModelDecl where
  num_vars : Option Nat
deriving DecidableEq, Repr

/-- PointMass(num_vars, params): a point-mass distribution with num_vars
free parameters, optionally seeded with initial values. -/
structure PointMass where
  num_vars : Nat
  params : Option (List ℚ)
deriving DecidableEq, Repr

/-- Variational() container after the add calls made by MAP/Laplace. -/
structure Variational where
  factors : List PointMass
deriving DecidableEq, Repr

/-- MAP.__init__ (lines 538-546): if the model has num_vars, add
PointMass(model.num_vars, params); else add PointMass(0) — the params
argument defaults to None there, so supplied params are dropped. -/
def mapInit (model : ModelDecl) (params : Option (List ℚ)) : Variational :=
  match model.num_vars with
  | some n => ⟨[⟨n, params⟩]⟩
  | none => ⟨[⟨0, none⟩]⟩

/-- Laplace.__init__ (lines 574-579): inside tf.variable_scope
("variational"), add PointMass(model.num_vars, params).  Reading
model.num_vars on a model without the attribute raises AttributeError;
on success the result records the scope name the parameters live in. -/
def laplaceInit (model : ModelDecl) (params : Option (List ℚ)) :
    Except String (String × Variational) :=
  match model.num_vars with
  | some n => Except.ok (("variational"), ⟨[⟨n, params⟩]⟩)
  | none => Except.error (("AttributeError: num_vars"))

/-- tf.squeeze on the scalar log-probability of the single point-mass
sample: the identity on its scalar value. -/
def squeeze (q : ℚ) : ℚ := q

/-- MAP.build_loss (lines 548-559): x = data.sample(n_data),
z = variational.sample(), self.loss = squeeze(model.log_prob(x, z)),
return -self.loss.  Result pair is (self.loss, returned node). -/
def mapBuildLoss {χ : Type} (logp : χ → ℚ → ℚ) (x : χ) (zPoint : ℚ) :
    ℚ × ℚ :=
  let loss := squeeze (logp x zPoint)
  (loss, -loss)

/-- Laplace.build_loss (lines 581-592): textually the same body as
MAP.build_loss. -/
def laplaceBuildLoss {χ : Type} (logp : χ → ℚ → ℚ) (x : χ) (zPoint : ℚ) :
    ℚ × ℚ :=
  let loss := squeeze (logp x zPoint)
  (loss, -loss)

/- ### Helper lemmas -/

lemma iterState_shift {σ : Type} (upd : σ → σ × ℚ) (s : σ) :
    ∀ i, iterState upd s (i+1) = iterState upd (upd s).1 i := by
  intro i
  induction i with
  | zero => rfl
  | succ i ih =>
    have h : iterState upd s (i+1+1) = (upd (iterState upd s (i+1))).1 := rfl
    rw [h, ih]
    rfl

lemma lossSeq_shift {σ : Type} (upd : σ → σ × ℚ) (s : σ) (i : Nat) :
    lossSeq upd s (i+1) = lossSeq upd (upd s).1 i := by
  unfold lossSeq
  rw [iterState_shift]

lemma runLoopTrace_closed {σ : Type} (upd : σ → σ × ℚ) (k : Nat) :
    ∀ (t₀ : Nat) (s : σ),
      runLoopTrace upd k t₀ s =
        ((List.range k).flatMap fun i =>
          [Event.update (lossSeq upd s i),
           Event.print_progress (t₀ + i) (lossSeq upd s i)]) ++ [Event.finalize] := by
  induction k with
  | zero =>
    intro t₀ s
    simp [runLoopTrace]
  | succ k ih =>
    intro t₀ s
    rw [runLoopTrace, ih (t₀+1) (upd s).1, List.range_succ_eq_map]
    simp only [List.flatMap_cons, List.flatMap_map]
    have harg : ∀ i : Nat,
        (fun i => [Event.update (lossSeq upd (upd s).1 i),
                   Event.print_progress (t₀ + 1 + i) (lossSeq upd (upd s).1 i)]) i =
        (fun i => [Event.update (lossSeq upd s (Nat.succ i)),
                   Event.print_progress (t₀ + Nat.succ i) (lossSeq upd s (Nat.succ i))]) i := by
      intro i
      simp only [lossSeq_shift upd s i, Nat.succ_eq_add_one]
      have : t₀ + 1 + i = t₀ + (i + 1) := by omega
      rw [this]
    rw [funext harg]
    have h0 : lossSeq upd s 0 = (upd s).2 := rfl
    simp [h0]

lemma countP_runLoopTrace_update {σ : Type} (upd : σ → σ × ℚ) (k : Nat) :
    ∀ (t₀ : Nat) (s : σ), (runLoopTrace upd k t₀ s).countP isUpdate = k := by
  induction k with
  | zero => intro _ _; rfl
  | succ k ih =>
    intro t₀ s
    simp [runLoopTrace, List.countP_cons, isUpdate, ih]

lemma countP_runLoopTrace_finalize {σ : Type} (upd : σ → σ × ℚ) (k : Nat) :
    ∀ (t₀ : Nat) (s : σ), (runLoopTrace upd k t₀ s).countP isFinalize = 1 := by
  induction k with
  | zero => intro _ _; rfl
  | succ k ih =>
    intro t₀ s
    simp [runLoopTrace, List.countP_cons, isFinalize, ih]

lemma countP_runLoopTrace_init {σ : Type} (upd : σ → σ × ℚ) (k : Nat) :
    ∀ (t₀ : Nat) (s : σ), (runLoopTrace upd k t₀ s).countP isInit = 0 := by
  induction k with
  | zero => intro _ _; rfl
  | succ k ih =>
    intro t₀ s
    simp [runLoopTrace, List.countP_cons, isInit, ih]

/- ### Claim theorems -/

/-- Claim C1: for every n_iter, run first calls initialize, then performs
exactly n_iter + 1 calls to update, each immediately followed by
print_progress(t, loss) with the loss that update returned, for
t = 0 .. n_iter, and finally calls finalize exactly once. -/
theorem claim_C1_run_protocol {σ : Type} (upd : σ → σ × ℚ) (n : Nat) (s : σ) :
    runTrace upd n s =
      Event.init ::
        (((List.range (n+1)).flatMap fun t =>
          [Event.update (lossSeq upd s t),
           Event.print_progress t (lossSeq upd s t)]) ++ [Event.finalize])
    ∧ (runTrace upd n s).countP isUpdate = n + 1
    ∧ (runTrace upd n s).countP isInit = 1
    ∧ (runTrace upd n s).countP isFinalize = 1 := by
  refine ⟨?_, ?_, ?_, ?_⟩
  · rw [runTrace, runLoopTrace_closed upd (n+1) 0 s]
    simp
  · simp [runTrace, List.countP_cons, isUpdate, countP_runLoopTrace_update]
  · simp [runTrace, List.countP_cons, isInit, countP_runLoopTrace_init]
  · simp [runTrace, List.countP_cons, isFinalize, countP_runLoopTrace_finalize]

/-- Claim C2 counterexample: the claim says passing score=False yields the
reparameterization estimator (self.score = false); but on a family with
is_reparam = true, MFVI.initialize with score = some false assigns
self.score = true, the score estimator. -/
theorem claim_C2_counterexample : selectScore (some false) true = true := by
  decide

/-- Claim C2 (amended): MFVI.initialize selects the reparameterization
estimator exactly when score is None and the family supports
reparameterization; in every other case — including an explicit
score=False — it selects the score-function estimator. -/
theorem claim_C2_amended :
    ∀ (sc : Option Bool) (ir : Bool),
      selectScore sc ir = false ↔ (sc = none ∧ ir = true) := by
  decide

/-- Claim C3 counterexample: with both a custom optimizer and a scope,
initialize does raise the "not supported" error, but the instance state
is not as if initialize had never been called: n_iter (among other
fields) has already been assigned when the error is raised. -/
theorem claim_C3_counterexample :
    (initVI {} 5 none (some 100) 1 2 (some ("pt")) (some ("sc"))).2 =
      some errNotSupported
    ∧ (initVI {} 5 none (some 100) 1 2 (some ("pt")) (some ("sc"))).1 ≠
        ({} : VIState) := by
  refine ⟨rfl, ?_⟩
  intro h
  have h5 : (initVI {} 5 none (some 100) 1 2 (some ("pt")) (some ("sc"))).1.n_iter =
      ({} : VIState).n_iter := by rw [h]
  simp [initVI] at h5

/-- Claim C3 (amended): if both a custom optimizer and a variable scope
are supplied, initialize raises the "not supported" error before any
training op is created — self.train is never assigned, so no runnable
update step exists — but the fields n_iter, n_data, n_print and the
loss state set by build_loss have already been mutated when the error
is raised. -/
theorem claim_C3_amended (s : VIState) (nI : Nat) (nD nP : Option Nat)
    (lB zB : ℚ) (o sc : String) :
    (initVI s nI nD nP lB zB (some o) (some sc)).2 = some errNotSupported
    ∧ (initVI s nI nD nP lB zB (some o) (some sc)).1.train = s.train
    ∧ (initVI s nI nD nP lB zB (some o) (some sc)).1.n_iter = some nI
    ∧ (initVI s nI nD nP lB zB (some o) (some sc)).1.loss = some lB
    ∧ (initVI s nI nD nP lB zB (some o) (some sc)).1.zs = some zB := by
  exact ⟨rfl, rfl, rfl, rfl, rfl⟩

/-- Claim C4: MFVI.build_loss returns exactly one of the four variants of
the 2x2 dispatch table (score/reparam × analytic-KL when the family is
Gaussian and the model exposes log_lik), and the analytic-entropy
variants are unreachable under every configuration. -/
theorem claim_C4_dispatch :
    ∀ (sc n hl : Bool),
      (mfviBuildLossVariant sc n hl = LossVariant.score_loss_kl ↔
        sc = true ∧ n = true ∧ hl = true)
      ∧ (mfviBuildLossVariant sc n hl = LossVariant.score_loss ↔
          sc = true ∧ ¬(n = true ∧ hl = true))
      ∧ (mfviBuildLossVariant sc n hl = LossVariant.reparam_loss_kl ↔
          sc = false ∧ n = true ∧ hl = true)
      ∧ (mfviBuildLossVariant sc n hl = LossVariant.reparam_loss ↔
          sc = false ∧ ¬(n = true ∧ hl = true))
      ∧ mfviBuildLossVariant sc n hl ≠ LossVariant.score_loss_entropy
      ∧ mfviBuildLossVariant sc n hl ≠ LossVariant.reparam_loss_entropy := by
  decide

lemma zipWith_map_same {α β γ δ : Type} (f : β → γ → δ) (g : α → β)
    (h : α → γ) (l : List α) :
    List.zipWith f (l.map g) (l.map h) = l.map fun a => f (g a) (h a) := by
  induction l with
  | nil => rfl
  | cons a t ih => simp [ih]

lemma zipWith_self_map {α γ δ : Type} (f : α → γ → δ) (h : α → γ)
    (l : List α) :
    List.zipWith f l (l.map h) = l.map fun a => f a (h a) := by
  induction l with
  | nil => rfl
  | cons a t ih => simp [ih]

lemma sum_map_exp_pos (l : List ℝ) (h : l ≠ []) :
    0 < (l.map Real.exp).sum := by
  cases l with
  | nil => exact absurd rfl h
  | cons a t =>
    simp only [List.map_cons, List.sum_cons]
    have h1 : 0 < Real.exp a := Real.exp_pos a
    have h2 : 0 ≤ (t.map Real.exp).sum := by
      apply List.sum_nonneg
      intro x hx
      simp only [List.mem_map] at hx
      obtain ⟨y, _, rfl⟩ := hx
      exact (Real.exp_pos y).le
    linarith

/-- Claim C5: the MFVI plain score loss reports loss = mean(logw) with
logw = log_prob_model(x,z) - log_prob_q(z), returns the negative mean
of log_prob_q(z) times a frozen copy of logw, and its gradient flows
only through the log_prob_q multiplier's direct λ-dependence — never
through the frozen logw factor nor through the frozen z argument. -/
theorem claim_C5_score_loss (M : PModel ℚ) (Q : QFamily ℚ) (x : ℚ)
    (zs : List (Dual ℚ)) :
    (build_score_loss M Q x zs).1.val
        = meanL (zs.map fun z => M.logp x z.val - Q.logq z.val)
    ∧ (build_score_loss M Q x zs).2.val
        = -(meanL (zs.map fun z =>
            Q.logq z.val * (M.logp x z.val - Q.logq z.val)))
    ∧ (build_score_loss M Q x zs).2.grad
        = -(meanL (zs.map fun z =>
            Q.dlogq_dl z.val * (M.logp x z.val - Q.logq z.val))) := by
  refine ⟨?_, ?_, ?_⟩ <;>
    simp [build_score_loss, reduce_mean, scoreLosses, dsub, dmul, dneg,
      stopGradient, QFamily.logProbD, PModel.logProbD, List.map_map,
      Function.comp_def, meanL]

/-- Claim C6: KLpq.build_loss computes logw = log_prob_model(x,z) minus
the (z-frozen) variational log-density, normalizes in the log domain as
logw - logsumexp(logw) and exponentiates to w_norm, reports
loss = mean(w_norm * logw), and returns -mean(log_prob_q(z) * frozen
(w_norm)), whose gradient flows only through the log_prob_q
multiplier's direct λ-dependence. -/
theorem claim_C6_klpq_loss (M : PModel ℝ) (Q : QFamily ℝ) (x : ℝ)
    (zs : List (Dual ℝ)) :
    (klpq_build_loss M Q x zs).1.val
        = meanL (zs.map fun z =>
            Real.exp ((M.logp x z.val - Q.logq z.val) -
              log_sum_exp (zs.map fun w => M.logp x w.val - Q.logq w.val))
            * (M.logp x z.val - Q.logq z.val))
    ∧ (klpq_build_loss M Q x zs).2.val
        = -(meanL (zs.map fun z => Q.logq z.val *
            Real.exp ((M.logp x z.val - Q.logq z.val) -
              log_sum_exp (zs.map fun w => M.logp x w.val - Q.logq w.val))))
    ∧ (klpq_build_loss M Q x zs).2.grad
        = -(meanL (zs.map fun z => Q.dlogq_dl z.val *
            Real.exp ((M.logp x z.val - Q.logq z.val) -
              log_sum_exp (zs.map fun w => M.logp x w.val - Q.logq w.val)))) := by
  refine ⟨?_, ?_, ?_⟩ <;>
    simp [klpq_build_loss, klpqLogW, reduce_mean, dsub, dmul, dneg, dexp,
      stopGradient, QFamily.logProbD, PModel.logProbD, log_sum_expD,
      zipWith_map_same, zipWith_self_map, List.map_map, Function.comp_def,
      meanL]

/-- Claim C7: for every nonempty vector logw, the normalized weights
exp(logw - logsumexp(logw)) sum to 1 in exact arithmetic, and
logw - logsumexp(logw) equals log(softmax(logw)) componentwise. -/
theorem claim_C7_normalized_weights (l : List ℝ) (h : l ≠ []) :
    ((l.map fun a => Real.exp (a - log_sum_exp l)).sum = 1)
    ∧ ∀ a ∈ l, a - log_sum_exp l = Real.log (softmax l a) := by
  have hpos : 0 < (l.map Real.exp).sum := sum_map_exp_pos l h
  constructor
  · simp only [Real.exp_sub, log_sum_exp, Real.exp_log hpos, div_eq_mul_inv]
    rw [List.sum_map_mul_right]
    exact mul_inv_cancel₀ (ne_of_gt hpos)
  · intro a _
    rw [softmax, Real.log_div (Real.exp_ne_zero a) (ne_of_gt hpos),
      Real.log_exp, log_sum_exp]

/-- Witness for claim C7 at the one-element weight vector [0]. -/
theorem claim_C7_witness :
    ([(0:ℝ)] ≠ [])
    ∧ ((([(0:ℝ)].map fun a => Real.exp (a - log_sum_exp [(0:ℝ)])).sum = 1)
       ∧ ∀ a ∈ [(0:ℝ)], a - log_sum_exp [(0:ℝ)] =
           Real.log (softmax [(0:ℝ)] a)) :=
  ⟨by simp, claim_C7_normalized_weights [(0:ℝ)] (by simp)⟩

/-- Claim C8: print_progress(t, loss) produces no output when n_print is
None; when n_print = np ≥ 1 it produces output exactly when np divides
t, in which case it emits the iteration index, the loss rounded to
hundredths (2 decimal places), and the variational-family summary. -/
theorem claim_C8_print_progress (vsum : String) (t : Nat) (loss : ℚ) :
    print_progress none vsum t loss = []
    ∧ ∀ np : Nat, 0 < np →
        ((print_progress (some np) vsum t loss ≠ [] ↔ np ∣ t)
         ∧ (np ∣ t → print_progress (some np) vsum t loss =
              [OutputLine.progress t (fmtHundredths loss),
               OutputLine.summary vsum])) := by
  refine ⟨rfl, ?_⟩
  intro np _
  have hdvd : np ∣ t ↔ t % np = 0 := Nat.dvd_iff_mod_eq_zero
  constructor
  · rw [hdvd]
    unfold print_progress
    by_cases hm : t % np = 0 <;> simp [hm]
  · intro hd
    have hm : t % np = 0 := hdvd.mp hd
    unfold print_progress
    simp [hm]

/-- Witness for claim C8 at n_print = 2, t = 4, loss = 1/2. -/
theorem claim_C8_witness :
    (0 < 2)
    ∧ ((print_progress (some 2) ("q") 4 (1/2) ≠ [] ↔ 2 ∣ 4)
       ∧ (2 ∣ 4 → print_progress (some 2) ("q") 4 (1/2) =
            [OutputLine.progress 4 (fmtHundredths (1/2)),
             OutputLine.summary ("q")])) :=
  ⟨by decide, (claim_C8_print_progress ("q") 4 (1/2)).2 2 (by decide)⟩

/-- Claim C9: Laplace.build_loss is functionally identical to
MAP.build_loss — same reported loss (the squeezed model log-probability
at the point-mass sample) and same returned negation — and the two
differ only in that Laplace constructs its point-mass parameters inside
the variable scope named "variational". -/
theorem claim_C9_laplace_map_equiv :
    (∀ (χ : Type) (logp : χ → ℚ → ℚ) (x : χ) (z : ℚ),
        laplaceBuildLoss logp x z = mapBuildLoss logp x z)
    ∧ (∀ (model : ModelDecl) (params : Option (List ℚ)) (n : Nat),
        model.num_vars = some n →
        laplaceInit model params =
          Except.ok (("variational"), mapInit model params)) := by
  constructor
  · intro _ _ _ _
    rfl
  · intro model params n h
    simp [laplaceInit, mapInit, h]

/-- Witness for claim C9 on a two-latent-variable model. -/
theorem claim_C9_witness :
    (laplaceBuildLoss (fun x z => x * z) (2:ℚ) 3 =
      mapBuildLoss (fun x z => x * z) (2:ℚ) 3)
    ∧ ((ModelDecl.mk (some 2)).num_vars = some 2)
    ∧ (laplaceInit (ModelDecl.mk (some 2)) none =
        Except.ok (("variational"), mapInit (ModelDecl.mk (some 2)) none)) :=
  ⟨claim_C9_laplace_map_equiv.1 ℚ (fun x z => x * z) 2 3, rfl,
   claim_C9_laplace_map_equiv.2 (ModelDecl.mk (some 2)) none 2 rfl⟩

/-- Claim C10: constructing MAP on a model without a num_vars attribute
succeeds with a zero-parameter point mass, silently dropping any
supplied initial parameter values, whereas constructing Laplace on such
a model fails, since it reads model.num_vars unconditionally. -/
theorem claim_C10_missing_num_vars (params : Option (List ℚ)) :
    mapInit (ModelDecl.mk none) params = Variational.mk [PointMass.mk 0 none]
    ∧ laplaceInit (ModelDecl.mk none) params =
        Except.error (("AttributeError: num_vars")) :=
  ⟨rfl, rfl⟩

end Edward
